import Mathlib

/-
Shallow embedding of the soil-moisture index core of the repository
(src/server/earthEngine.ts).  The remote Earth Engine is modelled as an
abstract oracle (the Engine structure below); the expression pipeline the
code builds before evaluation is embedded as an explicit syntax of the
composition primitives the code uses (filterDate, select, map NDMI, mean,
reduceRegion).  Machine floats are modelled as rationals; JS Promise
rejection and thrown errors are modelled with Except String.
-/

namespace SoilMoisture

/-- Calendar date; the code passes dates as ISO strings, this embedding
uses their denotation.  setFullYear(getFullYear() - 5) becomes an update
of the year field. -/
structure Date where
  year : Int
  month : Nat
  day : Nat
deriving DecidableEq, Repr

/-- Lexicographic order on dates (ISO string order on well-formed dates). -/
def dateLe (a b : Date) : Bool :=
  a.year < b.year ||
    (a.year = b.year && (a.month < b.month ||
      (a.month = b.month && a.day ≤ b.day)))

/-- Month abbreviation used for trend labels
(new Date(date).toLocaleDateString with short month). -/
def monthShort : Nat → String
  | 1 => "Jan" | 2 => "Feb" | 3 => "Mar" | 4 => "Apr"
  | 5 => "May" | 6 => "Jun" | 7 => "Jul" | 8 => "Aug"
  | 9 => "Sep" | 10 => "Oct" | 11 => "Nov" | 12 => "Dec"
  | _ => ""

/-- A geometry is identified by its defining rectangle coordinate list,
as passed to ee.Geometry.Rectangle. -/
abbrev Geo := List ℚ

/-- type TimeStep = daily | weekly | monthly (earthEngine.ts line 3). -/
inductive TimeStep
  | daily
  | weekly
  | monthly
deriving DecidableEq, Repr

/-- Result of getTimeFilter: an advance amount and a calendar unit. -/
structure TimeFilter where
  advance : Nat
  unit : String
deriving DecidableEq, Repr

/-- getTimeFilter (earthEngine.ts lines 295-306).  The default branch of
the switch is unreachable for the TimeStep union type. -/
def getTimeFilter : TimeStep → TimeFilter
  | .daily => ⟨1, "day"⟩
  | .weekly => ⟨1, "week"⟩
  | .monthly => ⟨1, "month"⟩

/-- A date argument of filterDate: either a literal date or
ee.Date(d).advance(n, unit). -/
inductive EDate
  | lit : Date → EDate
  | advanced : Date → Nat → String → EDate
deriving DecidableEq, Repr

/-- Deferred image-collection expressions: exactly the composition
primitives the code applies before evaluation. -/
inductive CExpr
  | imageCollection : String → CExpr
  | filterDate : CExpr → EDate → EDate → CExpr
  | select : CExpr → List String → CExpr
  | mapNDMI : CExpr → CExpr
deriving DecidableEq, Repr

/-- Deferred single-image expressions (collection.mean()). -/
inductive IExpr
  | mean : CExpr → IExpr
deriving DecidableEq, Repr

/-- The only reducer the code constructs is ee.Reducer.mean(). -/
inductive Reducer
  | mean
deriving DecidableEq, Repr

/-- One reduceRegion request as issued to the engine: the image being
reduced plus the reducer, geometry, scale and maxPixels arguments.  The
geometry is an Option because a JS object lookup of an unregistered
region name yields undefined. -/
structure ReduceRequest where
  reducer : Reducer
  image : IExpr
  geometry : Option Geo
  scale : Nat
  maxPixels : Nat
deriving DecidableEq, Repr

/-- The remote Earth Engine as an oracle: evaluate of a reduceRegion
(returns the NDMI entry of the result dictionary, which may be absent),
the distinct-date aggregate query over a collection, and
geometry.coordinates().getInfo() resolution. -/
structure Engine where
  evalReduce : ReduceRequest → Except String (Option ℚ)
  evalDistinctDates : CExpr → Except String (List Date)
  evalCoordinates : Geo → List (ℚ × ℚ)

/-- Per-pixel band arithmetic of calculateNDMI (earthEngine.ts lines
126-130): NIR minus SWIR over NIR plus SWIR. -/
def calculateNDMI (nir swir : ℚ) : ℚ :=
  (nir - swir) / (nir + swir)

/-- getSoilMoistureStatus (earthEngine.ts lines 133-138). -/
def getSoilMoistureStatus (ndmi : ℚ) : String :=
  if ndmi > 0.2 then "Above Normal"
  else if ndmi > 0.1 then "Normal"
  else if ndmi > 0 then "Moderate Drought"
  else "Severe Drought"

/-- regionCoordinates (earthEngine.ts lines 109-115). -/
def regionCoordinates : List (String × Geo) :=
  [("North Region", [-98, 40, -90, 45]),
   ("Central Plains", [-110, 35, -100, 42]),
   ("Eastern Basin", [-85, 38, -80, 42]),
   ("Southern Valley", [-95, 30, -85, 35]),
   ("Western Hills", [-120, 38, -115, 45])]

/-- createRegions builds one ee.Geometry.Rectangle per registry entry;
a geometry is modelled by its rectangle coordinates. -/
def createRegions : List (String × Geo) :=
  regionCoordinates

/-- JS object property access regions[region]: undefined when the name
is not a key. -/
def lookupRegion (r : String) : Option Geo :=
  createRegions.lookup r

/-- All registered regions, each with its (defined) geometry. -/
def allRegions : List (String × Option Geo) :=
  createRegions.map (fun p => (p.1, some p.2))

/-- selectedRegions (earthEngine.ts lines 156-158):
region && region !== "entire" ? one-entry object : all regions.
In JS both undefined and the empty string are falsy, so an absent or
empty region argument selects all regions; any other name yields a
single entry looked up without membership validation. -/
def selectedRegions (region : Option String) : List (String × Option Geo) :=
  match region with
  | none => allRegions
  | some r =>
    if r = "" then allRegions
    else if r = "entire" then allRegions
    else [(r, lookupRegion r)]

/-- One summary row of the response (earthEngine.ts lines 215-225).
The date field is the wall-clock timestamp new Date().toISOString(),
passed in as a parameter; the geometry is the Polygon coordinate ring
resolved through the engine (none when the geometry was undefined). -/
structure RegionSummary where
  region : String
  value : ℚ
  average : ℚ
  status : String
  date : Date
  coordinates : Option (List (ℚ × ℚ))
deriving DecidableEq, Repr

/-- One trend entry (earthEngine.ts lines 285-289): month label, the
bucket start date, and the spread per-region values. -/
structure TrendPoint where
  name : String
  date : Date
  regionValues : List (String × ℚ)
deriving DecidableEq, Repr

/-- One GeoJSON feature of getRegionBoundaries. -/
structure GeoFeature where
  name : String
  coordinates : Option (List (ℚ × ℚ))
deriving DecidableEq, Repr

/-- The assembled response (earthEngine.ts lines 232-236). -/
structure SMResult where
  data : List RegionSummary
  regions : List GeoFeature
  trends : List TrendPoint
deriving DecidableEq, Repr

/-- Equality of modelled evaluation outcomes is decidable, so witnesses
can be checked by evaluation. -/
instance exceptDecEq {ε α : Type} [DecidableEq ε] [DecidableEq α] :
    DecidableEq (Except ε α)
  | .ok x, .ok y =>
    if h : x = y then .isTrue (by rw [h])
    else .isFalse (fun hc => h (Except.ok.inj hc))
  | .error x, .error y =>
    if h : x = y then .isTrue (by rw [h])
    else .isFalse (fun hc => h (Except.error.inj hc))
  | .ok _, .error _ => .isFalse (fun hc => Except.noConfusion hc)
  | .error _, .ok _ => .isFalse (fun hc => Except.noConfusion hc)

/-- Sequential all-or-nothing collection: the model of both Promise.all
over the per-region promises and the sequential for loops; it fails as
soon as any element fails and otherwise returns every result. -/
def collectE {α β : Type} (f : α → Except String β) : List α → Except String (List β)
  | [] => .ok []
  | a :: as =>
    match f a with
    | .error e => .error e
    | .ok b =>
      match collectE f as with
      | .error e => .error e
      | .ok bs => .ok (b :: bs)

def landsatDataset : String := "LANDSAT/LC08/C02/T1_L2"

def landsatBands : List String := ["SR_B5", "SR_B6"]

/-- The NDMI collection (earthEngine.ts lines 161-166): the Landsat
collection filtered to the window, bands selected, NDMI mapped. -/
def ndmiCollectionExpr (startDate endDate : Date) : CExpr :=
  .mapNDMI (.select
    (.filterDate (.imageCollection landsatDataset) (.lit startDate) (.lit endDate))
    landsatBands)

/-- new Date(startDate) with setFullYear(getFullYear() - 5)
(earthEngine.ts lines 190-191). -/
def historicalStartDate (d : Date) : Date :=
  { d with year := d.year - 5 }

/-- The current-window reduction request of one region (earthEngine.ts
lines 172-181): mean image of the NDMI collection, mean reducer,
scale 30, maxPixels 1e9. -/
def currentRequest (startDate endDate : Date) (g : Option Geo) : ReduceRequest :=
  { reducer := .mean
    image := .mean (ndmiCollectionExpr startDate endDate)
    geometry := g
    scale := 30
    maxPixels := 1000000000 }

/-- The historical-baseline reduction request of one region
(earthEngine.ts lines 193-204): the independently fetched collection
over the window starting five years earlier, same reducer, scale and
pixel ceiling. -/
def historicalRequest (startDate endDate : Date) (g : Option Geo) : ReduceRequest :=
  { reducer := .mean
    image := .mean (ndmiCollectionExpr (historicalStartDate startDate) endDate)
    geometry := g
    scale := 30
    maxPixels := 1000000000 }

/-- resolve(result.NDMI || 0): a missing NDMI entry of a successful
evaluation resolves to 0 (earthEngine.ts lines 185, 208, 279). -/
def resolveNdmi (r : Option ℚ) : ℚ :=
  r.getD 0

/-- The per-region async body of the Promise.all (earthEngine.ts lines
170-226): evaluate the current reduction, then the historical one, then
assemble the RegionSummary; a rejection of either evaluation rejects
the whole region. -/
def regionSummary (eng : Engine) (now startDate endDate : Date)
    (rn : String × Option Geo) : Except String RegionSummary :=
  match eng.evalReduce (currentRequest startDate endDate rn.2) with
  | .error e => .error e
  | .ok cur =>
    match eng.evalReduce (historicalRequest startDate endDate rn.2) with
    | .error e => .error e
    | .ok hist =>
      let value := resolveNdmi cur
      let average := resolveNdmi hist
      .ok { region := rn.1
            value := value
            average := average
            status := getSoilMoistureStatus (value - average)
            date := now
            coordinates := rn.2.map eng.evalCoordinates }

/-- The per-bucket reduction request of one region (earthEngine.ts lines
263-276): the NDMI collection filtered to the half-open bucket starting
at the distinct date, mean image, mean reducer, scale 30, maxPixels 1e9. -/
def bucketRequest (coll : CExpr) (tf : TimeFilter) (d : Date) (g : Option Geo) :
    ReduceRequest :=
  { reducer := .mean
    image := .mean (.filterDate coll (.lit d) (.advanced d tf.advance tf.unit))
    geometry := g
    scale := 30
    maxPixels := 1000000000 }

/-- The body of the inner per-region loop of calculateTemporalTrends
(earthEngine.ts lines 268-283): evaluate the bucket reduction of one
region and pair the region name with the resolved value. -/
def bucketValue (eng : Engine) (coll : CExpr) (tf : TimeFilter) (d : Date)
    (rn : String × Option Geo) : Except String (String × ℚ) :=
  match eng.evalReduce (bucketRequest coll tf d rn.2) with
  | .error e => .error e
  | .ok v => .ok (rn.1, resolveNdmi v)

/-- The per-distinct-date body of the trend loop (earthEngine.ts lines
262-290): one reduction per region, collected into the regionValues of
one TrendPoint. -/
def trendPointFor (eng : Engine) (coll : CExpr)
    (regions : List (String × Option Geo)) (tf : TimeFilter) (d : Date) :
    Except String TrendPoint :=
  match collectE (bucketValue eng coll tf d) regions with
  | .error e => .error e
  | .ok vals => .ok { name := monthShort d.month, date := d, regionValues := vals }

/-- calculateTemporalTrends (earthEngine.ts lines 249-293): one remote
distinct-date discovery, then one TrendPoint per discovered date, in
discovery order, with no re-sorting. -/
def calculateTemporalTrends (eng : Engine) (coll : CExpr)
    (regions : List (String × Option Geo)) (timeStep : TimeStep) :
    Except String (List TrendPoint) :=
  match eng.evalDistinctDates coll with
  | .error e => .error e
  | .ok ds => collectE (trendPointFor eng coll regions (getTimeFilter timeStep)) ds

/-- getRegionBoundaries (earthEngine.ts lines 308-317). -/
def getRegionBoundaries (eng : Engine) (regions : List (String × Option Geo)) :
    List GeoFeature :=
  regions.map (fun rn => { name := rn.1, coordinates := rn.2.map eng.evalCoordinates })

/-- The try body of calculateSoilMoistureIndex (earthEngine.ts lines
146-236): select regions, build the NDMI collection, run the per-region
summaries (Promise.all), then the temporal trends, then assemble. -/
def calculateSoilMoistureIndexCore (eng : Engine) (now startDate endDate : Date)
    (timeStep : TimeStep) (region : Option String) : Except String SMResult :=
  match collectE (regionSummary eng now startDate endDate) (selectedRegions region) with
  | .error e => .error e
  | .ok data =>
    match calculateTemporalTrends eng (ndmiCollectionExpr startDate endDate)
        (selectedRegions region) timeStep with
    | .error e => .error e
    | .ok trends =>
      .ok { data := data
            regions := getRegionBoundaries eng (selectedRegions region)
            trends := trends }

/-- The module-level Earth Engine session state: how many authentication
handshakes have been performed in this process. -/
structure EEState where
  handshakes : Nat
deriving DecidableEq, Repr

/-- initialize (earthEngine.ts lines 42-106): with credentials present
it calls ee.data.authenticateViaPrivateKey followed by ee.initialize,
performing one authentication handshake, unconditionally on each
invocation (there is no cached-session guard). -/
def initializeEE (s : EEState) : EEState :=
  { handshakes := s.handshakes + 1 }

/-- calculateSoilMoistureIndex (earthEngine.ts lines 140-247): awaits
initialize first, runs the core, and wraps any thrown or rejected error
into the single ComputationError message of the catch block. -/
def calculateSoilMoistureIndex (eng : Engine) (now startDate endDate : Date)
    (timeStep : TimeStep) (region : Option String) (s : EEState) :
    EEState × Except String SMResult :=
  (initializeEE s,
    match calculateSoilMoistureIndexCore eng now startDate endDate timeStep region with
    | .ok r => .ok r
    | .error e => .error ("Failed to calculate soil moisture index: " ++ e))

/-- The request fails with the single wrapped ComputationError message. -/
abbrev failsWrapped (r : Except String SMResult) : Prop :=
  ∃ c, r = .error ("Failed to calculate soil moisture index: " ++ c)

/-- Modelled from the spec: the repository also contains a
radiative-temperature index derivation whose source file is not among
the files under src (the only expression builder there is calculateNDMI);
the following definitions follow the wording of spec section 4.1.
Brightness temperature from the thermal band via the fixed linear
calibration, scale 0.00341802 and offset 149.0 Kelvin. -/
noncomputable def brightnessTemperature (thermal : ℝ) : ℝ :=
  thermal * 0.00341802 + 149.0

/-- Modelled from the spec: vegetation-fraction proxy clamping an NDVI
value via the square of (ndvi minus 0.2) over 0.3. -/
noncomputable def vegetationFraction (ndvi : ℝ) : ℝ :=
  ((ndvi - 0.2) / 0.3) ^ 2

/-- Modelled from the spec: emissivity as 0.004 times the vegetation
fraction plus 0.986. -/
noncomputable def emissivity (pv : ℝ) : ℝ :=
  0.004 * pv + 0.986

/-- Modelled from the spec: land-surface temperature via the calibrated
radiative-transfer inversion with lambda 0.00115 and c2 14388, shifted
to Celsius. -/
noncomputable def landSurfaceTemperature (tb eps : ℝ) : ℝ :=
  tb / (1 + (0.00115 * tb / 14388) * Real.log eps) - 273.15

/-- Modelled from the spec: empirical maximum LST as a linear function
of NDVI. -/
noncomputable def lstMax (ndvi : ℝ) : ℝ :=
  5 * ndvi + 40

/-- Modelled from the spec: empirical minimum LST as a linear function
of NDVI. -/
noncomputable def lstMin (ndvi : ℝ) : ℝ :=
  3 * ndvi + 20

/-- Modelled from the spec: the composite radiative-temperature index,
chaining brightness temperature, vegetation fraction, emissivity, LST,
and the nonlinear min-max normalization. -/
noncomputable def radiativeTemperatureIndex (thermal ndvi : ℝ) : ℝ :=
  (lstMax ndvi -
    landSurfaceTemperature (brightnessTemperature thermal)
      (emissivity (vegetationFraction ndvi))) /
  (lstMax ndvi - lstMin ndvi)

/-- Concrete dates used by the evaluation witnesses. -/
def dayA : Date := ⟨2023, 1, 1⟩

def dayB : Date := ⟨2023, 11, 30⟩

def nowDay : Date := ⟨2024, 1, 15⟩

/-- A deterministic engine on which every evaluation succeeds with a
missing NDMI entry and discovery returns one date. -/
def engOkNone : Engine where
  evalReduce := fun _ => .ok none
  evalDistinctDates := fun _ => .ok [dayA]
  evalCoordinates := fun _ => []

/-- A deterministic engine on which every remote evaluation fails. -/
def engFail : Engine where
  evalReduce := fun _ => .error "boom"
  evalDistinctDates := fun _ => .error "boom"
  evalCoordinates := fun _ => []

/-- An engine that succeeds exactly on the two reduction requests of the
North Region summary and fails on every other request. -/
def engSelective : Engine where
  evalReduce := fun req =>
    if req = currentRequest dayA dayB (some [-98, 40, -90, 45]) ∨
        req = historicalRequest dayA dayB (some [-98, 40, -90, 45]) then
      .ok none
    else
      .error "off-script request"
  evalDistinctDates := fun _ => .error "off-script request"
  evalCoordinates := fun _ => []

/-- Every successful collectE run relates inputs and outputs pointwise. -/
theorem collectE_ok_forall₂ {α β : Type} {f : α → Except String β} :
    ∀ {l : List α} {out : List β}, collectE f l = .ok out →
      List.Forall₂ (fun a b => f a = .ok b) l out := by
  intro l
  induction l with
  | nil =>
    intro out h
    simp only [collectE, Except.ok.injEq] at h
    subst h
    exact .nil
  | cons a as ih =>
    intro out h
    simp only [collectE] at h
    cases hfa : f a with
    | error e => rw [hfa] at h; simp at h
    | ok b =>
      rw [hfa] at h
      cases hrest : collectE f as with
      | error e => rw [hrest] at h; simp at h
      | ok bs =>
        rw [hrest] at h
        simp only [Except.ok.injEq] at h
        subst h
        exact .cons hfa (ih hrest)

/-- collectE fails whenever any element of the list fails. -/
theorem collectE_error_of_mem {α β : Type} {f : α → Except String β} {x : α} {e : String} :
    ∀ {l : List α}, x ∈ l → f x = .error e → ∃ c, collectE f l = .error c := by
  intro l
  induction l with
  | nil =>
    intro h
    exact absurd h (List.not_mem_nil x)
  | cons a as ih =>
    intro hmem hfx
    rcases List.mem_cons.mp hmem with h | h
    · subst h
      exact ⟨e, by simp [collectE, hfx]⟩
    · cases hfa : f a with
      | error e2 => exact ⟨e2, by simp [collectE, hfa]⟩
      | ok b =>
        obtain ⟨c, hc⟩ := ih h hfx
        exact ⟨c, by simp [collectE, hfa, hc]⟩

/-- Mapping a pointwise-related output agrees with mapping the input. -/
theorem forall₂_map_eq {α β γ : Type} {R : α → β → Prop} {g : β → γ} {gl : α → γ}
    {l : List α} {out : List β}
    (hf : List.Forall₂ R l out) (hgh : ∀ a b, R a b → g b = gl a) :
    out.map g = l.map gl := by
  induction hf with
  | nil => rfl
  | cons hR _ ih => simp only [List.map_cons, hgh _ _ hR, ih]

/-- Every element of a pointwise-related output comes from an input. -/
theorem forall₂_mem_right {α β : Type} {R : α → β → Prop} :
    ∀ {l : List α} {out : List β}, List.Forall₂ R l out → ∀ b ∈ out, ∃ a ∈ l, R a b := by
  intro l out hf
  induction hf with
  | nil =>
    intro b hb
    exact absurd hb (List.not_mem_nil b)
  | cons hR htail ih =>
    intro b hb
    rcases List.mem_cons.mp hb with h | h
    · subst h
      exact ⟨_, List.mem_cons_self _ _, hR⟩
    · obtain ⟨a, ha, hab⟩ := ih b h
      exact ⟨a, List.mem_cons_of_mem _ ha, hab⟩

/-- A successful trend point carries its bucket date and one value per
supplied region, in order. -/
theorem trendPointFor_ok (eng : Engine) (coll : CExpr)
    (regions : List (String × Option Geo)) (tf : TimeFilter) (d : Date)
    (tp : TrendPoint) (h : trendPointFor eng coll regions tf d = .ok tp) :
    tp.date = d ∧ tp.regionValues.map Prod.fst = regions.map Prod.fst := by
  unfold trendPointFor at h
  cases hc : collectE (bucketValue eng coll tf d) regions with
  | error e => rw [hc] at h; simp at h
  | ok vals =>
    rw [hc] at h
    simp only [Except.ok.injEq] at h
    subst h
    refine ⟨rfl, ?_⟩
    refine forall₂_map_eq (collectE_ok_forall₂ hc) ?_
    intro a b hab
    unfold bucketValue at hab
    cases he : eng.evalReduce (bucketRequest coll tf d a.2) with
    | error e => rw [he] at hab; simp at hab
    | ok v =>
      rw [he] at hab
      simp only [Except.ok.injEq] at hab
      subst hab
      rfl

/-- A core failure surfaces as the single wrapped top-level error. -/
theorem wrapped_of_core_error (eng : Engine) (now startDate endDate : Date)
    (ts : TimeStep) (region : Option String) (s : EEState) (e : String)
    (h : calculateSoilMoistureIndexCore eng now startDate endDate ts region = .error e) :
    (calculateSoilMoistureIndex eng now startDate endDate ts region s).2 =
      .error ("Failed to calculate soil moisture index: " ++ e) := by
  simp [calculateSoilMoistureIndex, h]

/-- A failing current or baseline reduction fails the whole region. -/
theorem regionSummary_error (eng : Engine) (now startDate endDate : Date)
    (rn : String × Option Geo)
    (h : (∃ e, eng.evalReduce (currentRequest startDate endDate rn.2) = .error e) ∨
         (∃ e, eng.evalReduce (historicalRequest startDate endDate rn.2) = .error e)) :
    ∃ c, regionSummary eng now startDate endDate rn = .error c := by
  cases hc : eng.evalReduce (currentRequest startDate endDate rn.2) with
  | error e => exact ⟨e, by simp [regionSummary, hc]⟩
  | ok cur =>
    rcases h with ⟨e, he⟩ | ⟨e, he⟩
    · rw [he] at hc
      simp at hc
    · exact ⟨e, by simp [regionSummary, hc, he]⟩

/-- C1: for every pair (value, average) with delta the difference, the
status of a RegionSummary is the pure function getSoilMoistureStatus of
delta alone, and the buckets are: above 0.2 AboveNormal, above 0.1 up
to 0.2 Normal, above 0 up to 0.1 ModerateDrought, at or below 0
SevereDrought, with every boundary resolving to the lower bucket. -/
theorem getSoilMoistureStatus_buckets (eng : Engine) (now startDate endDate : Date)
    (rn : String × Option Geo) (sm : RegionSummary) (value average : ℚ) :
    (regionSummary eng now startDate endDate rn = .ok sm →
      sm.status = getSoilMoistureStatus (sm.value - sm.average)) ∧
    (value - average > 0.2 →
      getSoilMoistureStatus (value - average) = "Above Normal") ∧
    (0.1 < value - average ∧ value - average ≤ 0.2 →
      getSoilMoistureStatus (value - average) = "Normal") ∧
    (0 < value - average ∧ value - average ≤ 0.1 →
      getSoilMoistureStatus (value - average) = "Moderate Drought") ∧
    (value - average ≤ 0 →
      getSoilMoistureStatus (value - average) = "Severe Drought") := by
  refine ⟨?_, ?_, ?_, ?_, ?_⟩
  · intro h
    unfold regionSummary at h
    cases hc : eng.evalReduce (currentRequest startDate endDate rn.2) with
    | error e => rw [hc] at h; simp at h
    | ok cur =>
      rw [hc] at h
      cases hh : eng.evalReduce (historicalRequest startDate endDate rn.2) with
      | error e => rw [hh] at h; simp at h
      | ok hist =>
        rw [hh] at h
        simp only [Except.ok.injEq] at h
        subst h
        rfl
  · intro h
    unfold getSoilMoistureStatus
    rw [if_pos h]
  · rintro ⟨h1, h2⟩
    unfold getSoilMoistureStatus
    rw [if_neg (not_lt.mpr h2), if_pos h1]
  · rintro ⟨h1, h2⟩
    unfold getSoilMoistureStatus
    rw [if_neg (not_lt.mpr (by linarith)), if_neg (not_lt.mpr h2), if_pos h1]
  · intro h
    unfold getSoilMoistureStatus
    rw [if_neg (not_lt.mpr (by linarith)), if_neg (not_lt.mpr (by linarith)),
      if_neg (not_lt.mpr h)]

/-- Witness for C1: a concrete summary on a concrete engine, and a
concrete delta in the top bucket. -/
theorem getSoilMoistureStatus_buckets_witness :
    regionSummary engOkNone nowDay dayA dayB ("North Region", none) =
      .ok { region := "North Region", value := 0, average := 0,
            status := "Severe Drought", date := nowDay, coordinates := none } ∧
    ("Severe Drought" : String) = getSoilMoistureStatus ((0 : ℚ) - 0) ∧
    (1 : ℚ) - 0 > 0.2 ∧
    getSoilMoistureStatus ((1 : ℚ) - 0) = "Above Normal" := by
  have hsum : regionSummary engOkNone nowDay dayA dayB ("North Region", none) =
      .ok { region := "North Region", value := 0, average := 0,
            status := "Severe Drought", date := nowDay, coordinates := none } := by
    simp [regionSummary, engOkNone, resolveNdmi, getSoilMoistureStatus]
    norm_num
  refine ⟨hsum, ?_, by norm_num, ?_⟩
  · exact (getSoilMoistureStatus_buckets engOkNone nowDay dayA dayB ("North Region", none)
      { region := "North Region", value := 0, average := 0,
        status := "Severe Drought", date := nowDay, coordinates := none } 1 0).1 hsum
  · exact (getSoilMoistureStatus_buckets engOkNone nowDay dayA dayB ("North Region", none)
      { region := "North Region", value := 0, average := 0,
        status := "Severe Drought", date := nowDay, coordinates := none } 1 0).2.1
      (by norm_num)

/-- C8: the normalized-difference index is antisymmetric in its two
bands, and it vanishes when the bands agree. -/
theorem calculateNDMI_antisymmetric (A B : ℚ) (h : A + B ≠ 0) :
    calculateNDMI B A = - calculateNDMI A B ∧
    (A = B → calculateNDMI A B = 0) := by
  constructor
  · unfold calculateNDMI
    rw [add_comm B A, ← neg_div, neg_sub]
  · intro hAB
    subst hAB
    unfold calculateNDMI
    simp

/-- Witness for C8 at bands 1 and 1. -/
theorem calculateNDMI_antisymmetric_witness :
    (1 : ℚ) + 1 ≠ 0 ∧
    calculateNDMI 1 1 = - calculateNDMI 1 1 ∧
    calculateNDMI 1 1 = 0 := by
  refine ⟨by norm_num, ?_, ?_⟩
  · exact (calculateNDMI_antisymmetric 1 1 (by norm_num)).1
  · exact (calculateNDMI_antisymmetric 1 1 (by norm_num)).2 rfl

/-- C6: the radiative-temperature derivation reproduces the calibration
scale 0.00341802 and offset 149.0, the vegetation-fraction clamp, the
emissivity 0.004 Pv + 0.986, the LST inversion with lambda 0.00115 and
c2 14388 shifted by 273.15, and the min-max normalization with
LST max 5 NDVI + 40 and LST min 3 NDVI + 20, exactly. -/
theorem radiativeTemperatureIndex_constants (thermal ndvi : ℝ) :
    radiativeTemperatureIndex thermal ndvi =
      ((5 * ndvi + 40) -
        ((thermal * 0.00341802 + 149.0) /
          (1 + (0.00115 * (thermal * 0.00341802 + 149.0) / 14388) *
            Real.log (0.004 * ((ndvi - 0.2) / 0.3) ^ 2 + 0.986)) - 273.15)) /
      ((5 * ndvi + 40) - (3 * ndvi + 20)) := rfl

/-- C5 counterexample: two calls from a fresh process state perform two
authentication handshakes, so the session is not established at most
once per process lifetime. -/
theorem second_call_handshake_counterexample :
    ((calculateSoilMoistureIndex engOkNone nowDay dayA dayB TimeStep.weekly none
        (calculateSoilMoistureIndex engOkNone nowDay dayA dayB TimeStep.weekly none
          ⟨0⟩).1).1).handshakes = 2 ∧
    ¬ ((calculateSoilMoistureIndex engOkNone nowDay dayA dayB TimeStep.weekly none
        (calculateSoilMoistureIndex engOkNone nowDay dayA dayB TimeStep.weekly none
          ⟨0⟩).1).1).handshakes ≤ 1 := by
  exact ⟨rfl, by decide⟩

/-- C5 amended: initialization is not guarded; every call to the
outward-facing operation performs exactly one additional authentication
handshake. -/
theorem handshake_per_call (eng : Engine) (now startDate endDate : Date)
    (ts : TimeStep) (region : Option String) (s : EEState) :
    ((calculateSoilMoistureIndex eng now startDate endDate ts region s).1).handshakes =
      s.handshakes + 1 := rfl

/-- C10 counterexample: the empty region string is falsy in the source
condition, so it selects all five regions instead of the singleton the
claim predicts for every string other than entire. -/
theorem selectedRegions_empty_counterexample :
    (selectedRegions (some "")).map Prod.fst =
      ["North Region", "Central Plains", "Eastern Basin",
       "Southern Valley", "Western Hills"] ∧
    selectedRegions (some "") ≠ [("", lookupRegion "")] := by
  constructor
  · rfl
  · decide

/-- C10 amended: an absent, empty, or entire region argument selects all
five registered regions; any other nonempty string selects exactly the
singleton looked up from the registry without membership validation, so
an unregistered name yields a single entry with undefined geometry. -/
theorem selectedRegions_selection (region : Option String) :
    ((region = none ∨ region = some "" ∨ region = some "entire") →
      selectedRegions region = allRegions) ∧
    (∀ r, region = some r → r ≠ "" → r ≠ "entire" →
      selectedRegions region = [(r, lookupRegion r)]) ∧
    (∀ r, region = some r → r ≠ "" → r ≠ "entire" →
      r ∉ createRegions.map Prod.fst → selectedRegions region = [(r, none)]) ∧
    allRegions.length = 5 := by
  refine ⟨?_, ?_, ?_, rfl⟩
  · rintro (h | h | h) <;> subst h <;> rfl
  · intro r hr h1 h2
    subst hr
    simp [selectedRegions, h1, h2]
  · intro r hr h1 h2 hmem
    subst hr
    have hlook : lookupRegion r = none := by
      simp only [createRegions, regionCoordinates, List.map_cons, List.map_nil,
        List.mem_cons, List.not_mem_nil, or_false] at hmem
      push_neg at hmem
      obtain ⟨n1, n2, n3, n4, n5⟩ := hmem
      simp [lookupRegion, createRegions, regionCoordinates, List.lookup,
        beq_eq_false_iff_ne.mpr n1, beq_eq_false_iff_ne.mpr n2,
        beq_eq_false_iff_ne.mpr n3, beq_eq_false_iff_ne.mpr n4,
        beq_eq_false_iff_ne.mpr n5]
    simp [selectedRegions, h1, h2, hlook]

/-- Witness for C10 amended: the entire argument selects all regions. -/
theorem selectedRegions_selection_witness :
    ((some "entire" : Option String) = none ∨
      (some "entire" : Option String) = some "" ∨
      (some "entire" : Option String) = some "entire") ∧
    selectedRegions (some "entire") = allRegions :=
  ⟨Or.inr (Or.inr rfl),
    (selectedRegions_selection (some "entire")).1 (Or.inr (Or.inr rfl))⟩

/-- C2: if any selected region's current or baseline reduction fails, or
the distinct-date discovery fails, the whole request fails with the one
wrapped ComputationError naming the failed computation; because the
operation returns a single Except value, no partially populated result
accompanies the failure. -/
theorem request_fails_on_any_reduction_error (eng : Engine)
    (now startDate endDate : Date) (ts : TimeStep) (region : Option String)
    (s : EEState)
    (h : (∃ rn ∈ selectedRegions region,
            (∃ e, eng.evalReduce (currentRequest startDate endDate rn.2) = .error e) ∨
            (∃ e, eng.evalReduce (historicalRequest startDate endDate rn.2) = .error e)) ∨
         (∃ e, eng.evalDistinctDates (ndmiCollectionExpr startDate endDate) = .error e)) :
    failsWrapped (calculateSoilMoistureIndex eng now startDate endDate ts region s).2 := by
  rcases h with ⟨rn, hmem, hfail⟩ | ⟨e, he⟩
  · obtain ⟨c, hc⟩ := regionSummary_error eng now startDate endDate rn hfail
    obtain ⟨c2, hc2⟩ := collectE_error_of_mem hmem hc
    exact ⟨c2, wrapped_of_core_error eng now startDate endDate ts region s c2
      (by simp [calculateSoilMoistureIndexCore, hc2])⟩
  · cases hdata : collectE (regionSummary eng now startDate endDate)
        (selectedRegions region) with
    | error e2 =>
      exact ⟨e2, wrapped_of_core_error eng now startDate endDate ts region s e2
        (by simp [calculateSoilMoistureIndexCore, hdata])⟩
    | ok data =>
      have htr : calculateTemporalTrends eng (ndmiCollectionExpr startDate endDate)
          (selectedRegions region) ts = .error e := by
        simp [calculateTemporalTrends, he]
      exact ⟨e, wrapped_of_core_error eng now startDate endDate ts region s e
        (by simp [calculateSoilMoistureIndexCore, hdata, htr])⟩

/-- Witness for C2: on an engine whose every evaluation fails, the call
fails with the wrapped error. -/
theorem request_fails_witness :
    engFail.evalDistinctDates (ndmiCollectionExpr dayA dayB) = .error "boom" ∧
    failsWrapped (calculateSoilMoistureIndex engFail nowDay dayA dayB
      TimeStep.weekly none ⟨0⟩).2 :=
  ⟨rfl, request_fails_on_any_reduction_error engFail nowDay dayA dayB
    TimeStep.weekly none ⟨0⟩ (Or.inr ⟨"boom", rfl⟩)⟩

/-- When every bucket reduction of a point succeeds with a missing
value, the point collects a zero for every region, in order. -/
theorem collectE_bucketValue_all_none (eng : Engine) (coll : CExpr)
    (tf : TimeFilter) (d : Date) :
    ∀ (regions : List (String × Option Geo)),
      (∀ r ∈ regions, eng.evalReduce (bucketRequest coll tf d r.2) = .ok none) →
      collectE (bucketValue eng coll tf d) regions =
        .ok (regions.map (fun r => (r.1, 0))) := by
  intro regions
  induction regions with
  | nil => intro _; rfl
  | cons a as ih =>
    intro hall
    have ha := hall a (List.mem_cons_self a as)
    have has := ih (fun r hr => hall r (List.mem_cons_of_mem a hr))
    simp [collectE, bucketValue, ha, has, resolveNdmi]

/-- C3: a reduction that succeeds with a missing NDMI entry resolves to
zero and the batch continues, in the spatial summary (current and
baseline) and in the trend bucket alike; neither is treated as an
error. -/
theorem missing_reduction_resolves_to_zero (eng : Engine)
    (now startDate endDate : Date) (coll : CExpr) (tf : TimeFilter) (d : Date)
    (regions : List (String × Option Geo)) (rn : String × Option Geo)
    (hcur : eng.evalReduce (currentRequest startDate endDate rn.2) = .ok none)
    (hhist : eng.evalReduce (historicalRequest startDate endDate rn.2) = .ok none)
    (hbuckets : ∀ r ∈ regions, eng.evalReduce (bucketRequest coll tf d r.2) = .ok none) :
    regionSummary eng now startDate endDate rn =
      .ok { region := rn.1, value := 0, average := 0,
            status := getSoilMoistureStatus 0, date := now,
            coordinates := rn.2.map eng.evalCoordinates } ∧
    trendPointFor eng coll regions tf d =
      .ok { name := monthShort d.month, date := d,
            regionValues := regions.map (fun r => (r.1, 0)) } := by
  constructor
  · simp [regionSummary, hcur, hhist, resolveNdmi]
  · simp [trendPointFor, collectE_bucketValue_all_none eng coll tf d regions hbuckets]

/-- Witness for C3: the all-missing engine yields zero values and a
successful batch. -/
theorem missing_reduction_witness :
    engOkNone.evalReduce (currentRequest dayA dayB none) = .ok none ∧
    regionSummary engOkNone nowDay dayA dayB ("North Region", none) =
      .ok { region := "North Region", value := 0, average := 0,
            status := getSoilMoistureStatus 0, date := nowDay,
            coordinates := none } ∧
    trendPointFor engOkNone (ndmiCollectionExpr dayA dayB)
        [("North Region", none)] ⟨1, "week"⟩ dayA =
      .ok { name := "Jan", date := dayA,
            regionValues := [("North Region", 0)] } := by
  have h := missing_reduction_resolves_to_zero engOkNone nowDay dayA dayB
    (ndmiCollectionExpr dayA dayB) ⟨1, "week"⟩ dayA [("North Region", none)]
    ("North Region", none) rfl rfl
    (by intro r hr; rw [List.mem_singleton] at hr; subst hr; rfl)
  exact ⟨rfl, h.1, h.2⟩

/-- C4: the trend output carries exactly one point per discovered
distinct date, in discovery order with no re-sorting, hence equal
length, and ascending whenever discovery is ascending. -/
theorem calculateTemporalTrends_one_point_per_date (eng : Engine) (coll : CExpr)
    (regions : List (String × Option Geo)) (ts : TimeStep)
    (ds : List Date) (tps : List TrendPoint)
    (hds : eng.evalDistinctDates coll = .ok ds)
    (h : calculateTemporalTrends eng coll regions ts = .ok tps) :
    tps.map TrendPoint.date = ds ∧ tps.length = ds.length ∧
    (ds.Chain' (fun a b => dateLe a b = true) →
      tps.Chain' (fun a b => dateLe a.date b.date = true)) := by
  unfold calculateTemporalTrends at h
  rw [hds] at h
  simp only at h
  have hf := collectE_ok_forall₂ h
  have hmap : tps.map TrendPoint.date = ds.map id :=
    forall₂_map_eq hf (fun a b hab => (trendPointFor_ok eng coll regions
      (getTimeFilter ts) a b hab).1)
  rw [List.map_id] at hmap
  refine ⟨hmap, ?_, ?_⟩
  · rw [← hmap, List.length_map]
  · intro hchain
    have hc : (tps.map TrendPoint.date).Chain' (fun a b => dateLe a b = true) := by
      rw [hmap]; exact hchain
    exact (List.chain'_map TrendPoint.date).mp hc

/-- Witness for C4 on a one-date discovery. -/
theorem calculateTemporalTrends_witness :
    engOkNone.evalDistinctDates (ndmiCollectionExpr dayA dayB) = .ok [dayA] ∧
    calculateTemporalTrends engOkNone (ndmiCollectionExpr dayA dayB) []
      TimeStep.weekly = .ok [{ name := "Jan", date := dayA, regionValues := [] }] ∧
    ([{ name := "Jan", date := dayA, regionValues := [] }] :
      List TrendPoint).map TrendPoint.date = [dayA] := by
  refine ⟨rfl, rfl, ?_⟩
  exact (calculateTemporalTrends_one_point_per_date engOkNone
    (ndmiCollectionExpr dayA dayB) [] TimeStep.weekly [dayA]
    [{ name := "Jan", date := dayA, regionValues := [] }] rfl rfl).1

/-- C7: a region summary consults the engine on exactly the two scalar
mean reductions written out here, the current window and the
independently fetched baseline window starting five years earlier, both
with the mean reducer at scale 30 and the 1e9 pixel ceiling: any two
engines agreeing on those two requests (and on geometry resolution)
produce identical summaries. -/
theorem regionSummary_two_reductions (eng1 eng2 : Engine)
    (now startDate endDate : Date) (rn : String × Option Geo)
    (hcur : eng1.evalReduce
        { reducer := .mean,
          image := .mean (ndmiCollectionExpr startDate endDate),
          geometry := rn.2, scale := 30, maxPixels := 1000000000 } =
      eng2.evalReduce
        { reducer := .mean,
          image := .mean (ndmiCollectionExpr startDate endDate),
          geometry := rn.2, scale := 30, maxPixels := 1000000000 })
    (hhist : eng1.evalReduce
        { reducer := .mean,
          image := .mean (ndmiCollectionExpr
            ⟨startDate.year - 5, startDate.month, startDate.day⟩ endDate),
          geometry := rn.2, scale := 30, maxPixels := 1000000000 } =
      eng2.evalReduce
        { reducer := .mean,
          image := .mean (ndmiCollectionExpr
            ⟨startDate.year - 5, startDate.month, startDate.day⟩ endDate),
          geometry := rn.2, scale := 30, maxPixels := 1000000000 })
    (hco : eng1.evalCoordinates = eng2.evalCoordinates) :
    regionSummary eng1 now startDate endDate rn =
      regionSummary eng2 now startDate endDate rn := by
  have h1 : eng1.evalReduce (currentRequest startDate endDate rn.2) =
      eng2.evalReduce (currentRequest startDate endDate rn.2) := hcur
  have h2 : eng1.evalReduce (historicalRequest startDate endDate rn.2) =
      eng2.evalReduce (historicalRequest startDate endDate rn.2) := hhist
  unfold regionSummary
  rw [h1, h2, hco]

/-- Witness for C7: the all-missing engine and the engine that only
answers the two North Region requests agree on the summary. -/
theorem regionSummary_two_reductions_witness :
    engOkNone.evalReduce
        { reducer := .mean,
          image := .mean (ndmiCollectionExpr dayA dayB),
          geometry := some [-98, 40, -90, 45],
          scale := 30, maxPixels := 1000000000 } =
      engSelective.evalReduce
        { reducer := .mean,
          image := .mean (ndmiCollectionExpr dayA dayB),
          geometry := some [-98, 40, -90, 45],
          scale := 30, maxPixels := 1000000000 } ∧
    regionSummary engOkNone nowDay dayA dayB
        ("North Region", some [-98, 40, -90, 45]) =
      regionSummary engSelective nowDay dayA dayB
        ("North Region", some [-98, 40, -90, 45]) := by
  constructor
  · decide
  · exact regionSummary_two_reductions engOkNone engSelective nowDay dayA dayB
      ("North Region", some [-98, 40, -90, 45]) (by decide) (by decide) rfl

/-- Every successful trend computation draws each point from some
discovered date. -/
theorem calculateTemporalTrends_ok_mem (eng : Engine) (coll : CExpr)
    (regions : List (String × Option Geo)) (ts : TimeStep)
    (tps : List TrendPoint)
    (h : calculateTemporalTrends eng coll regions ts = .ok tps) :
    ∀ tp ∈ tps, ∃ d, trendPointFor eng coll regions (getTimeFilter ts) d = .ok tp := by
  unfold calculateTemporalTrends at h
  cases hds : eng.evalDistinctDates coll with
  | error e => rw [hds] at h; simp at h
  | ok ds =>
    rw [hds] at h
    simp only at h
    intro tp htp
    obtain ⟨d, _, hd⟩ := forall₂_mem_right (collectE_ok_forall₂ h) tp htp
    exact ⟨d, hd⟩

/-- C9: in every successful call, every TrendPoint carries exactly the
selected region set as its keys, in selection order: no selected region
is missing and no extra region appears. -/
theorem trendPoint_keys_eq_selected (eng : Engine) (now startDate endDate : Date)
    (ts : TimeStep) (region : Option String) (s : EEState) (res : SMResult)
    (h : (calculateSoilMoistureIndex eng now startDate endDate ts region s).2 = .ok res) :
    ∀ tp ∈ res.trends,
      tp.regionValues.map Prod.fst = (selectedRegions region).map Prod.fst := by
  unfold calculateSoilMoistureIndex at h
  simp only at h
  cases hcore : calculateSoilMoistureIndexCore eng now startDate endDate ts region with
  | error e => rw [hcore] at h; simp at h
  | ok r =>
    rw [hcore] at h
    simp only [Except.ok.injEq] at h
    subst h
    unfold calculateSoilMoistureIndexCore at hcore
    cases hdata : collectE (regionSummary eng now startDate endDate)
        (selectedRegions region) with
    | error e => rw [hdata] at hcore; simp at hcore
    | ok data =>
      rw [hdata] at hcore
      simp only at hcore
      cases htr : calculateTemporalTrends eng (ndmiCollectionExpr startDate endDate)
          (selectedRegions region) ts with
      | error e => rw [htr] at hcore; simp at hcore
      | ok tps =>
        rw [htr] at hcore
        simp only [Except.ok.injEq] at hcore
        subst hcore
        intro tp htp
        obtain ⟨d, hd⟩ := calculateTemporalTrends_ok_mem eng
          (ndmiCollectionExpr startDate endDate) (selectedRegions region) ts tps htr tp htp
        exact (trendPointFor_ok eng (ndmiCollectionExpr startDate endDate)
          (selectedRegions region) (getTimeFilter ts) d tp hd).2

/-- Witness for C9: a successful single-region call whose one trend
point carries exactly the selected region key. -/
theorem trendPoint_keys_witness :
    (calculateSoilMoistureIndex engOkNone nowDay dayA dayB TimeStep.weekly
        (some "North Region") ⟨0⟩).2 =
      .ok { data := [{ region := "North Region", value := 0, average := 0,
                       status := "Severe Drought", date := nowDay,
                       coordinates := some [] }],
            regions := [{ name := "North Region", coordinates := some [] }],
            trends := [{ name := "Jan", date := dayA,
                         regionValues := [("North Region", 0)] }] } ∧
    ([("North Region", (0 : ℚ))] : List (String × ℚ)).map Prod.fst =
      (selectedRegions (some "North Region")).map Prod.fst := by
  have hok : (calculateSoilMoistureIndex engOkNone nowDay dayA dayB TimeStep.weekly
      (some "North Region") ⟨0⟩).2 =
      .ok { data := [{ region := "North Region", value := 0, average := 0,
                       status := "Severe Drought", date := nowDay,
                       coordinates := some [] }],
            regions := [{ name := "North Region", coordinates := some [] }],
            trends := [{ name := "Jan", date := dayA,
                         regionValues := [("North Region", 0)] }] } := by
    simp [calculateSoilMoistureIndex, calculateSoilMoistureIndexCore,
      collectE, regionSummary, engOkNone, resolveNdmi, getSoilMoistureStatus,
      selectedRegions, lookupRegion, createRegions, regionCoordinates,
      allRegions, calculateTemporalTrends, trendPointFor, bucketValue,
      getRegionBoundaries, getTimeFilter, monthShort, List.lookup, dayA]
    norm_num
  refine ⟨hok, ?_⟩
  exact trendPoint_keys_eq_selected engOkNone nowDay dayA dayB TimeStep.weekly
    (some "North Region") ⟨0⟩
    { data := [{ region := "North Region", value := 0, average := 0,
                 status := "Severe Drought", date := nowDay,
                 coordinates := some [] }],
      regions := [{ name := "North Region", coordinates := some [] }],
      trends := [{ name := "Jan", date := dayA,
                   regionValues := [("North Region", 0)] }] }
    hok
    { name := "Jan", date := dayA, regionValues := [("North Region", 0)] }
    (List.mem_singleton.mpr rfl)

end SoilMoisture
